import Mathlib

/-
  Verification development for the tudat rotational-dynamics partials core
  (inertialTorquePartial.h) and the continuous random-variable generator
  (randomVariableGenerator.h), via a shallow embedding in Lean 4.

  Conventions of the embedding:
  - Eigen 3-vectors and 3x3 matrices of doubles become Vec3 and Mat3 over the
    rationals; double arithmetic is modelled exactly (no claim here depends on
    floating-point rounding).
  - The double-valued simulation epoch becomes the Epoch type: a real value or
    the not-a-time sentinel TUDAT_NAN; operator== on doubles maps to epochEq,
    under which the sentinel compares unequal to everything, itself included.
  - The four std-function accessors bound at construction are side-effect-free
    per the specification, so each is modelled by the value it returns; the
    number of times each accessor is invoked during a call is returned
    alongside the new state as an AccessorCallCounts record.
-/

/-- Modelled from the spec: the epoch argument of update is a double that is
either a real time value or the not-a-time sentinel TUDAT_NAN (the definition
of TUDAT_NAN is not under src/). A real value is modelled as a rational. -/
inductive Epoch where
  | nan : Epoch
  | val : ℚ → Epoch
deriving DecidableEq, Repr

/-- Modelled from the spec: IEEE equality of epoch doubles, used by the guard
in update. The not-a-time sentinel compares unequal to every epoch, itself
included; real values compare by value. -/
def epochEq : Epoch → Epoch → Bool
  | Epoch.val a, Epoch.val b => decide (a = b)
  | _, _ => false

/-- A 3-component vector of doubles (Eigen Vector3d), modelled over ℚ. -/
structure Vec3 where
  x : ℚ
  y : ℚ
  z : ℚ
deriving DecidableEq, Repr

/-- A 3x3 matrix of doubles (Eigen Matrix3d), modelled over ℚ, row-major
fields. -/
structure Mat3 where
  m00 : ℚ
  m01 : ℚ
  m02 : ℚ
  m10 : ℚ
  m11 : ℚ
  m12 : ℚ
  m20 : ℚ
  m21 : ℚ
  m22 : ℚ
deriving DecidableEq, Repr

/-- Entry of a Mat3 at (row, column), with 0 outside the 3x3 range. -/
def Mat3.entry (m : Mat3) (i j : ℕ) : ℚ :=
  match i, j with
  | 0, 0 => m.m00
  | 0, 1 => m.m01
  | 0, 2 => m.m02
  | 1, 0 => m.m10
  | 1, 1 => m.m11
  | 1, 2 => m.m12
  | 2, 0 => m.m20
  | 2, 1 => m.m21
  | 2, 2 => m.m22
  | _, _ => 0

/-- Matrix sum. -/
def Mat3.add (a b : Mat3) : Mat3 :=
  ⟨a.m00 + b.m00, a.m01 + b.m01, a.m02 + b.m02,
   a.m10 + b.m10, a.m11 + b.m11, a.m12 + b.m12,
   a.m20 + b.m20, a.m21 + b.m21, a.m22 + b.m22⟩

/-- Matrix negation. -/
def Mat3.neg (a : Mat3) : Mat3 :=
  ⟨-a.m00, -a.m01, -a.m02, -a.m10, -a.m11, -a.m12, -a.m20, -a.m21, -a.m22⟩

/-- Matrix product. -/
def Mat3.mul (a b : Mat3) : Mat3 :=
  ⟨a.m00 * b.m00 + a.m01 * b.m10 + a.m02 * b.m20,
   a.m00 * b.m01 + a.m01 * b.m11 + a.m02 * b.m21,
   a.m00 * b.m02 + a.m01 * b.m12 + a.m02 * b.m22,
   a.m10 * b.m00 + a.m11 * b.m10 + a.m12 * b.m20,
   a.m10 * b.m01 + a.m11 * b.m11 + a.m12 * b.m21,
   a.m10 * b.m02 + a.m11 * b.m12 + a.m12 * b.m22,
   a.m20 * b.m00 + a.m21 * b.m10 + a.m22 * b.m20,
   a.m20 * b.m01 + a.m21 * b.m11 + a.m22 * b.m21,
   a.m20 * b.m02 + a.m21 * b.m12 + a.m22 * b.m22⟩

/-- Matrix-vector product. -/
def Mat3.mulVec (m : Mat3) (v : Vec3) : Vec3 :=
  ⟨m.m00 * v.x + m.m01 * v.y + m.m02 * v.z,
   m.m10 * v.x + m.m11 * v.y + m.m12 * v.z,
   m.m20 * v.x + m.m21 * v.y + m.m22 * v.z⟩

/-- Determinant of a 3x3 matrix, by cofactor expansion along the first row
(the formula Eigen uses for direct 3x3 inversion). -/
def Mat3.det (m : Mat3) : ℚ :=
  m.m00 * (m.m11 * m.m22 - m.m12 * m.m21)
    - m.m01 * (m.m10 * m.m22 - m.m12 * m.m20)
    + m.m02 * (m.m10 * m.m21 - m.m11 * m.m20)

/-- Inverse of a 3x3 matrix via the adjugate over the determinant, the direct
closed form Eigen evaluates for Matrix3d. A singular input is outside the
contract (Eigen then produces non-finite entries; here division by a zero
determinant yields zero entries), and no claim exercises that case. -/
def Mat3.inv (m : Mat3) : Mat3 :=
  let d := m.det
  ⟨(m.m11 * m.m22 - m.m12 * m.m21) / d,
   -(m.m01 * m.m22 - m.m02 * m.m21) / d,
   (m.m01 * m.m12 - m.m02 * m.m11) / d,
   -(m.m10 * m.m22 - m.m12 * m.m20) / d,
   (m.m00 * m.m22 - m.m02 * m.m20) / d,
   -(m.m00 * m.m12 - m.m02 * m.m10) / d,
   (m.m10 * m.m21 - m.m11 * m.m20) / d,
   -(m.m00 * m.m21 - m.m01 * m.m20) / d,
   (m.m00 * m.m11 - m.m01 * m.m10) / d⟩

/-- Cross product of two 3-vectors. -/
def Vec3.cross (a b : Vec3) : Vec3 :=
  ⟨a.y * b.z - a.z * b.y, a.z * b.x - a.x * b.z, a.x * b.y - a.y * b.x⟩

/-- Modelled from the spec: linear_algebra.getCrossProductMatrix is not under
src/; the spec characterises it as the skew-symmetric matrix of a vector v
satisfying, for every vector w, matrix times w equals v cross w. -/
def getCrossProductMatrix (v : Vec3) : Mat3 :=
  ⟨0, -v.z, v.y,
   v.z, 0, -v.x,
   -v.y, v.x, 0⟩

/-- The four externally-owned accessor functions bound at construction of an
InertialTorquePartial. Per the spec they are side-effect-free for a fixed
underlying state, so each is modelled by the value it returns. -/
structure Accessors where
  angularVelocityFunction_ : Vec3
  inertiaTensorFunction_ : Mat3
  getInertiaTensorNormalizationFactor_ : ℚ
  bodyGravitationalParameterFunction_ : ℚ

/-- How many times each bound accessor was invoked during one call to update
(instrumentation for the cache-reuse properties). -/
structure AccessorCallCounts where
  angularVelocityCalls : ℕ
  inertiaTensorCalls : ℕ
  normalizationCalls : ℕ
  gravitationalParameterCalls : ℕ
deriving DecidableEq, Repr

/-- The mutable cached members of an InertialTorquePartial. The field
currentTime_ lives in the TorquePartial base class (not under src/); the spec
states it is the not-a-time sentinel before first use. -/
structure InertialTorquePartialState where
  currentTime_ : Epoch
  currentAngularVelocityVector_ : Vec3
  currentAngularVelocityCrossProductMatrix_ : Mat3
  currentInertiaTensor_ : Mat3
  currentInverseInertiaTensor_ : Mat3
  currentPartialDerivativeWrtAngularVelocity_ : Mat3
  currentInertiaTensorNormalizationFactor_ : ℚ
  currentGravitationalParameter_ : ℚ
deriving DecidableEq, Repr

/-- Embedding of InertialTorquePartial.update (inertialTorquePartial.h lines
107 to 125). The guard compares the cached epoch against the argument with
double equality; the refresh branch re-reads all four accessors and recomputes
every cached quantity. Exactly as in the source, the refresh does not assign
currentTime_. The second component counts the accessor invocations this call
performed. -/
def InertialTorquePartialState.update (acc : Accessors)
    (s : InertialTorquePartialState) (currentTime : Epoch) :
    InertialTorquePartialState × AccessorCallCounts :=
  if !(epochEq s.currentTime_ currentTime) then
    let newAngularVelocityVector := acc.angularVelocityFunction_
    let newAngularVelocityCrossProductMatrix :=
      getCrossProductMatrix newAngularVelocityVector
    let newInertiaTensorNormalizationFactor :=
      acc.getInertiaTensorNormalizationFactor_
    let newGravitationalParameter := acc.bodyGravitationalParameterFunction_
    let newInertiaTensor := acc.inertiaTensorFunction_
    let newInverseInertiaTensor := Mat3.inv newInertiaTensor
    let newPartialDerivativeWrtAngularVelocity :=
      Mat3.add
        (Mat3.neg (Mat3.mul (getCrossProductMatrix newAngularVelocityVector)
          newInertiaTensor))
        (getCrossProductMatrix (Mat3.mulVec newInertiaTensor
          newAngularVelocityVector))
    ({ s with
        currentAngularVelocityVector_ := newAngularVelocityVector,
        currentAngularVelocityCrossProductMatrix_ :=
          newAngularVelocityCrossProductMatrix,
        currentInertiaTensorNormalizationFactor_ :=
          newInertiaTensorNormalizationFactor,
        currentGravitationalParameter_ := newGravitationalParameter,
        currentInertiaTensor_ := newInertiaTensor,
        currentInverseInertiaTensor_ := newInverseInertiaTensor,
        currentPartialDerivativeWrtAngularVelocity_ :=
          newPartialDerivativeWrtAngularVelocity },
     ⟨1, 1, 1, 1⟩)
  else
    (s, ⟨0, 0, 0, 0⟩)

/-- Embedding of InertialTorquePartial.wrtOrientationOfAcceleratedBody
(inertialTorquePartial.h lines 81 to 84): the body of the method is empty, so
the provider state and the caller-owned matrix are returned unchanged. The
caller-owned matrix is modelled as a total function from row and column
indices to entries. -/
def InertialTorquePartialState.wrtOrientationOfAcceleratedBody
    (s : InertialTorquePartialState) (partialMatrix : ℕ → ℕ → ℚ)
    (addContribution : Bool) (startRow : ℕ) (startColumn : ℕ) :
    InertialTorquePartialState × (ℕ → ℕ → ℚ) :=
  (s, partialMatrix)

/-- Adds a Mat3 onto the 3x3 sub-block of a matrix function at the given
offsets and leaves all other entries unchanged (Eigen block plus-equals). -/
def blockAddMat3 (m : ℕ → ℕ → ℚ) (startRow startColumn : ℕ) (p : Mat3) :
    ℕ → ℕ → ℚ :=
  fun i j =>
    if startRow ≤ i ∧ i < startRow + 3 ∧ startColumn ≤ j ∧ j < startColumn + 3
    then m i j + Mat3.entry p (i - startRow) (j - startColumn)
    else m i j

/-- Subtracts a Mat3 from the 3x3 sub-block of a matrix function at the given
offsets and leaves all other entries unchanged (Eigen block minus-equals). -/
def blockSubMat3 (m : ℕ → ℕ → ℚ) (startRow startColumn : ℕ) (p : Mat3) :
    ℕ → ℕ → ℚ :=
  fun i j =>
    if startRow ≤ i ∧ i < startRow + 3 ∧ startColumn ≤ j ∧ j < startColumn + 3
    then m i j - Mat3.entry p (i - startRow) (j - startColumn)
    else m i j

/-- Embedding of InertialTorquePartial.wrtRotationalVelocityOfAcceleratedBody
(inertialTorquePartial.h lines 86 to 98): adds the cached 3x3 analytic partial
onto the 3x3 sub-block at (startRow, startColumn) when addContribution holds,
subtracts it otherwise. -/
def InertialTorquePartialState.wrtRotationalVelocityOfAcceleratedBody
    (s : InertialTorquePartialState) (partialMatrix : ℕ → ℕ → ℚ)
    (addContribution : Bool) (startRow : ℕ) (startColumn : ℕ) :
    ℕ → ℕ → ℚ :=
  if addContribution then
    blockAddMat3 partialMatrix startRow startColumn
      s.currentPartialDerivativeWrtAngularVelocity_
  else
    blockSubMat3 partialMatrix startRow startColumn
      s.currentPartialDerivativeWrtAngularVelocity_

/-- Modelled from the spec: the propagators state-type enumeration is not
under src/; both dependency predicates ignore their arguments entirely, so
only the carrier of the enumeration matters. -/
inductive IntegratedStateType where
  | hybrid
  | translational_state
  | rotational_state
  | body_mass_state
  | custom_state
deriving DecidableEq, Repr

/-- Embedding of the dependency predicate for non-rotational integrated states
(inertialTorquePartial.h lines 54 to 59): the body is return 0. -/
def isStateDerivativeDependentOnIntegratedNonRotationalState
    (stateReferencePoint : String × String)
    (integratedStateType : IntegratedStateType) : Bool :=
  false

/-- Embedding of the dependency predicate for additional integrated state
types (inertialTorquePartial.h lines 100 to 105): the body is return false. -/
def isStateDerivativeDependentOnIntegratedAdditionalStateTypes
    (stateReferencePoint : String × String)
    (integratedStateType : IntegratedStateType) : Bool :=
  false

/-- Modelled from the spec: the estimatable-parameter identity objects passed
to getParameterPartialFunction are not under src/; the spec distinguishes a
mean moment of inertia, a central-body gravitational parameter, the degree-2
cosine coefficient block C20 C21 C22, the degree-2 sine coefficient block
S21 S22, and every other parameter identity, each tagged with the body the
parameter belongs to. -/
inductive EstimatableParameterIdentity where
  | meanMomentOfInertia (associatedBody : String)
  | gravitationalParameterOfBody (associatedBody : String)
  | degreeTwoCosineCoefficients (associatedBody : String)
  | degreeTwoSineCoefficients (associatedBody : String)
  | unrelatedParameterIdentity (associatedBody : String) (tag : String)
deriving DecidableEq, Repr

/-- The four protected closed-form partial evaluators declared in
inertialTorquePartial.h lines 129 to 141 (bodies not under src/); the
dispatch binds one of these tags, or none for a width-0 result. -/
inductive ParameterPartialEvaluator where
  | wrtMeanMomentOfInertia
  | wrtGravitationalParameter
  | wrtCosineSphericalHarmonicCoefficientsOfCentralBody
  | wrtSineSphericalHarmonicCoefficientsOfCentralBody
deriving DecidableEq, Repr

/-- Modelled from the spec: the bodies of the two getParameterPartialFunction
overloads are not under src/ (the header declares them only). The spec fixes
the dispatch table: mean moment of inertia of the accelerated body gives
width 1, the central-body gravitational parameter gives width 1, the degree-2
cosine block gives width 3, the degree-2 sine block gives width 2, and every
other parameter identity (including one of a different body) gives width 0
with an absent callable. -/
def getParameterPartialFunction (acceleratedBody : String) :
    EstimatableParameterIdentity → Option ParameterPartialEvaluator × ℕ
  | .meanMomentOfInertia b =>
      if b = acceleratedBody then
        (some .wrtMeanMomentOfInertia, 1)
      else (none, 0)
  | .gravitationalParameterOfBody b =>
      if b = acceleratedBody then
        (some .wrtGravitationalParameter, 1)
      else (none, 0)
  | .degreeTwoCosineCoefficients b =>
      if b = acceleratedBody then
        (some .wrtCosineSphericalHarmonicCoefficientsOfCentralBody, 3)
      else (none, 0)
  | .degreeTwoSineCoefficients b =>
      if b = acceleratedBody then
        (some .wrtSineSphericalHarmonicCoefficientsOfCentralBody, 2)
      else (none, 0)
  | .unrelatedParameterIdentity _ _ => (none, 0)

/-
  Embedding of randomVariableGenerator.h. The Mersenne twister engine
  boost::random::mt19937 and the adaptor boost::random::uniform_01 are
  external library components; they are embedded from their published
  algorithm (MT19937 with word size 32, state size 624, shift 397), with
  32-bit words modelled as naturals reduced modulo 2 to the 32.
-/

/-- State of the mt19937 engine: 624 words of 32 bits and the position of the
next untempered word. -/
structure MT19937 where
  mt : List ℕ
  mti : ℕ
deriving DecidableEq, Repr

/-- One step of the mt19937 seeding recurrence: word i from word i - 1. -/
def mtSeedStep (prev : ℕ) (i : ℕ) : ℕ :=
  (1812433253 * (Nat.xor prev (prev / 2 ^ 30)) + i) % 2 ^ 32

/-- Builds the seeding tail: words at indices i, i + 1, ... given the previous
word, for the requested number of remaining words. -/
def mtInitFrom (prev i : ℕ) : ℕ → List ℕ
  | 0 => []
  | n + 1 =>
    let next := mtSeedStep prev i
    next :: mtInitFrom next (i + 1) n

/-- Construction of an mt19937 engine from a 32-bit seed, as performed by the
mt19937 constructor the RandomVariableGenerator constructor delegates to. -/
def mtInit (seed : ℕ) : MT19937 :=
  let s0 := seed % 2 ^ 32
  { mt := s0 :: mtInitFrom s0 1 623, mti := 624 }

/-- One in-place step of the mt19937 twist loop at index i. -/
def mtTwistStep (mt : List ℕ) (i : ℕ) : List ℕ :=
  let x := (mt.getD i 0 / 2 ^ 31) * 2 ^ 31 + mt.getD ((i + 1) % 624) 0 % 2 ^ 31
  let xA := if x % 2 = 1 then Nat.xor (x / 2) 2567483615 else x / 2
  mt.set i (Nat.xor (mt.getD ((i + 397) % 624) 0) xA)

/-- The full mt19937 twist: the in-place loop over all 624 indices. -/
def mtTwist (mt : List ℕ) : List ℕ :=
  (List.range 624).foldl mtTwistStep mt

/-- The mt19937 tempering transform applied to each extracted word. -/
def mtTemper (y : ℕ) : ℕ :=
  let y1 := Nat.xor y (y / 2 ^ 11)
  let y2 := Nat.xor y1 (Nat.land (y1 * 2 ^ 7) 2636928640)
  let y3 := Nat.xor y2 (Nat.land (y2 * 2 ^ 15) 4022730752)
  Nat.xor y3 (y3 / 2 ^ 18)

/-- Extraction of the next 32-bit output from an mt19937 engine, twisting
first when the 624 buffered words are exhausted. -/
def mtNext (g : MT19937) : ℕ × MT19937 :=
  let g2 := if g.mti ≥ 624 then { mt := mtTwist g.mt, mti := 0 } else g
  (mtTemper (g2.mt.getD g2.mti 0), { g2 with mti := g2.mti + 1 })

/-- The probability distribution held by a ContinuousRandomVariableGenerator.
Modelled from the spec: the class
InvertibleContinuousProbabilityDistribution is not under src/; the generator
uses only its evaluateInverseCdf member, a map from a probability in the unit
interval to a value of the random variable. -/
structure InvertibleContinuousProbabilityDistribution where
  evaluateInverseCdf : ℚ → ℚ

/-- The base class RandomVariableGenerator (randomVariableGenerator.h lines
30 to 58): its constructor seeds the member mt19937 engine. -/
structure RandomVariableGenerator where
  randomNumberGenerator_ : MT19937

/-- The class ContinuousRandomVariableGenerator (randomVariableGenerator.h
lines 69 to 109): on top of the base engine it holds the distribution and the
uniform-01 adaptor, which stores its own copy of the engine taken at
construction. -/
structure ContinuousRandomVariableGenerator extends RandomVariableGenerator
    where
  randomVariable_ : InvertibleContinuousProbabilityDistribution
  randomUniformCdfGenerator_ : MT19937

/-- The ContinuousRandomVariableGenerator constructor (lines 79 to 83): seeds
the base engine from the seed and initialises the uniform-01 adaptor with a
copy of that freshly seeded engine. The C++ seed parameter is a double
converted to the 32-bit engine seed; the converted value is the model input. -/
def mkContinuousRandomVariableGenerator
    (randomVariable : InvertibleContinuousProbabilityDistribution)
    (seed : ℕ) : ContinuousRandomVariableGenerator :=
  let base : RandomVariableGenerator := { randomNumberGenerator_ := mtInit seed }
  { toRandomVariableGenerator := base,
    randomVariable_ := randomVariable,
    randomUniformCdfGenerator_ := base.randomNumberGenerator_ }

/-- The uniform-01 mapping of one raw engine output: the word divided by the
engine range, always inside the unit interval. -/
def uniform01Value (y : ℕ) : ℚ :=
  (y : ℚ) / 2 ^ 32

/-- Embedding of ContinuousRandomVariableGenerator.getRandomVariableValue
(randomVariableGenerator.h lines 92 to 95): draws one uniform probability
from the adaptor and maps it through the inverse cdf; the advanced engine
state is returned alongside the value. -/
def ContinuousRandomVariableGenerator.getRandomVariableValue
    (g : ContinuousRandomVariableGenerator) :
    ℚ × ContinuousRandomVariableGenerator :=
  let drawn := mtNext g.randomUniformCdfGenerator_
  (g.randomVariable_.evaluateInverseCdf (uniform01Value drawn.1),
   { g with randomUniformCdfGenerator_ := drawn.2 })

/-- The sequence of values produced by n successive calls to
getRandomVariableValue on a generator instance. -/
def ContinuousRandomVariableGenerator.randomSequence
    (g : ContinuousRandomVariableGenerator) : ℕ → List ℚ
  | 0 => []
  | n + 1 =>
    let drawn := g.getRandomVariableValue
    drawn.1 :: drawn.2.randomSequence n

/-- The i-th raw output word of an engine state, obtained by advancing the
engine i times and extracting once: a pure function of the state and i. -/
def mtOutputAt (st : MT19937) (i : ℕ) : ℕ :=
  (mtNext ((fun g => (mtNext g).2)^[i] st)).1

/-- The closed-form value sequence: the i-th value as a pure function of the
distribution, the seed, and the call index i alone. -/
def deterministicSequence (d : InvertibleContinuousProbabilityDistribution)
    (seed : ℕ) (n : ℕ) : List ℚ :=
  (List.range n).map
    (fun i => d.evaluateInverseCdf (uniform01Value (mtOutputAt (mtInit seed) i)))

/-
  Concrete sample inputs, shared by the witness theorems below. The angular
  velocity and inertia tensor values follow the end-to-end scenario of the
  spec.
-/

/-- Sample accessor bundle: omega is one tenth, two tenths, three tenths and
the inertia tensor is diagonal with entries 1, 2, 3. -/
def sampleAccessors : Accessors :=
  { angularVelocityFunction_ := ⟨1 / 10, 2 / 10, 3 / 10⟩,
    inertiaTensorFunction_ := ⟨1, 0, 0, 0, 2, 0, 0, 0, 3⟩,
    getInertiaTensorNormalizationFactor_ := 1,
    bodyGravitationalParameterFunction_ := 398600 }

/-- Modelled from the spec: before the first update the epoch marker holds the
not-a-time sentinel and the remaining cached members are uninitialized; zeros
stand in for their indeterminate initial contents. -/
def uninitializedState : InertialTorquePartialState :=
  { currentTime_ := Epoch.nan,
    currentAngularVelocityVector_ := ⟨0, 0, 0⟩,
    currentAngularVelocityCrossProductMatrix_ := ⟨0, 0, 0, 0, 0, 0, 0, 0, 0⟩,
    currentInertiaTensor_ := ⟨0, 0, 0, 0, 0, 0, 0, 0, 0⟩,
    currentInverseInertiaTensor_ := ⟨0, 0, 0, 0, 0, 0, 0, 0, 0⟩,
    currentPartialDerivativeWrtAngularVelocity_ := ⟨0, 0, 0, 0, 0, 0, 0, 0, 0⟩,
    currentInertiaTensorNormalizationFactor_ := 0,
    currentGravitationalParameter_ := 0 }

/-- A provider state freshly refreshed from the sample accessors at epoch 0. -/
def sampleState : InertialTorquePartialState :=
  (uninitializedState.update sampleAccessors (Epoch.val 0)).1

/-- A sample pre-filled caller-owned matrix. -/
def sampleMatrixFun : ℕ → ℕ → ℚ :=
  fun i j => (i : ℚ) + 10 * (j : ℚ)

/-- The zero-initialized caller-owned matrix. -/
def zeroMatrixFunction : ℕ → ℕ → ℚ :=
  fun _ _ => 0

/-- A sample probability distribution whose inverse cdf doubles its input. -/
def sampleDistribution : InvertibleContinuousProbabilityDistribution :=
  ⟨fun p => 2 * p⟩

/-
  Supporting lemmas.
-/

/-- The modelled cross-product matrix satisfies the defining property stated
in the spec: applying it to any vector yields the cross product. -/
theorem getCrossProductMatrix_spec (v w : Vec3) :
    Mat3.mulVec (getCrossProductMatrix v) w = Vec3.cross v w := by
  simp only [getCrossProductMatrix, Mat3.mulVec, Vec3.cross, Vec3.mk.injEq]
  refine ⟨by ring, by ring, by ring⟩

/-- The not-a-time sentinel compares unequal to every epoch on the right. -/
theorem epochEq_nan_right (e : Epoch) : epochEq e Epoch.nan = false := by
  cases e <;> rfl

/-- Inside the 3x3 sub-block, blockAddMat3 adds the matching Mat3 entry. -/
theorem blockAddMat3_inside (m : ℕ → ℕ → ℚ) (r c : ℕ) (p : Mat3) (a b : ℕ)
    (ha : a < 3) (hb : b < 3) :
    blockAddMat3 m r c p (r + a) (c + b) = m (r + a) (c + b) + Mat3.entry p a b := by
  unfold blockAddMat3
  rw [if_pos (by omega)]
  have h1 : r + a - r = a := by omega
  have h2 : c + b - c = b := by omega
  rw [h1, h2]

/-- Outside the 3x3 sub-block, blockAddMat3 leaves the entry unchanged. -/
theorem blockAddMat3_outside (m : ℕ → ℕ → ℚ) (r c : ℕ) (p : Mat3) (i j : ℕ)
    (hout : i < r ∨ r + 3 ≤ i ∨ j < c ∨ c + 3 ≤ j) :
    blockAddMat3 m r c p i j = m i j := by
  unfold blockAddMat3
  rw [if_neg (by omega)]

/-- Inside the 3x3 sub-block, blockSubMat3 subtracts the matching Mat3
entry. -/
theorem blockSubMat3_inside (m : ℕ → ℕ → ℚ) (r c : ℕ) (p : Mat3) (a b : ℕ)
    (ha : a < 3) (hb : b < 3) :
    blockSubMat3 m r c p (r + a) (c + b) = m (r + a) (c + b) - Mat3.entry p a b := by
  unfold blockSubMat3
  rw [if_pos (by omega)]
  have h1 : r + a - r = a := by omega
  have h2 : c + b - c = b := by omega
  rw [h1, h2]

/-- Outside the 3x3 sub-block, blockSubMat3 leaves the entry unchanged. -/
theorem blockSubMat3_outside (m : ℕ → ℕ → ℚ) (r c : ℕ) (p : Mat3) (i j : ℕ)
    (hout : i < r ∨ r + 3 ≤ i ∨ j < c ∨ c + 3 ≤ j) :
    blockSubMat3 m r c p i j = m i j := by
  unfold blockSubMat3
  rw [if_neg (by omega)]

/-- Advancing the engine once shifts the raw output stream by one index. -/
theorem mtOutputAt_succ (st : MT19937) (i : ℕ) :
    mtOutputAt st (i + 1) = mtOutputAt (mtNext st).2 i := by
  unfold mtOutputAt
  rw [Function.iterate_succ_apply]

/-- The value sequence of a generator instance is the closed-form stream of
its own engine state: each value is the inverse cdf of the uniform mapping of
the i-th raw engine output. -/
theorem randomSequence_eq_stream (g : ContinuousRandomVariableGenerator)
    (n : ℕ) :
    g.randomSequence n =
      (List.range n).map
        (fun i => g.randomVariable_.evaluateInverseCdf
          (uniform01Value (mtOutputAt g.randomUniformCdfGenerator_ i))) := by
  induction n generalizing g with
  | zero => rfl
  | succ n ih =>
    rw [List.range_succ_eq_map, List.map_cons, List.map_map]
    show g.getRandomVariableValue.1 ::
        (g.getRandomVariableValue.2).randomSequence n = _
    rw [ih]
    refine congrArg₂ List.cons ?_ ?_
    · simp [ContinuousRandomVariableGenerator.getRandomVariableValue, mtOutputAt]
    · refine congrArg (fun f => List.map f (List.range n)) (funext fun i => ?_)
      simp only [Function.comp_apply, Nat.succ_eq_add_one, mtOutputAt_succ]
      rfl

/-
  Claim theorems.
-/

/-- Claim C1: after an update call that performs a refresh, the cached 3x3
partial derivative of the pseudo-torque with respect to angular velocity
equals minus the cross-product matrix of omega times the inertia tensor plus
the cross-product matrix of the inertia tensor applied to omega, where omega
and the inertia tensor are the values returned by the bound accessors and the
cross-product matrix is the skew-symmetric matrix sending every w to the
cross product. -/
theorem C1_update_caches_analytic_partial (acc : Accessors)
    (s : InertialTorquePartialState) (t : Epoch)
    (h : epochEq s.currentTime_ t = false) (v w : Vec3) :
    Mat3.mulVec (getCrossProductMatrix v) w = Vec3.cross v w ∧
    ((s.update acc t).1).currentPartialDerivativeWrtAngularVelocity_ =
      Mat3.add
        (Mat3.neg (Mat3.mul
          (getCrossProductMatrix acc.angularVelocityFunction_)
          acc.inertiaTensorFunction_))
        (getCrossProductMatrix (Mat3.mulVec acc.inertiaTensorFunction_
          acc.angularVelocityFunction_)) := by
  refine ⟨getCrossProductMatrix_spec v w, ?_⟩
  simp [InertialTorquePartialState.update, h]

/-- Witness for claim C1 at the sample inputs. -/
theorem C1_update_caches_analytic_partial_witness :
    epochEq uninitializedState.currentTime_ (Epoch.val 0) = false ∧
    (Mat3.mulVec (getCrossProductMatrix ⟨1, 0, 0⟩) ⟨0, 1, 0⟩ =
        Vec3.cross ⟨1, 0, 0⟩ ⟨0, 1, 0⟩ ∧
      ((uninitializedState.update sampleAccessors
          (Epoch.val 0)).1).currentPartialDerivativeWrtAngularVelocity_ =
        Mat3.add
          (Mat3.neg (Mat3.mul
            (getCrossProductMatrix sampleAccessors.angularVelocityFunction_)
            sampleAccessors.inertiaTensorFunction_))
          (getCrossProductMatrix
            (Mat3.mulVec sampleAccessors.inertiaTensorFunction_
              sampleAccessors.angularVelocityFunction_))) :=
  ⟨by decide,
   C1_update_caches_analytic_partial sampleAccessors uninitializedState
     (Epoch.val 0) (by decide) ⟨1, 0, 0⟩ ⟨0, 1, 0⟩⟩

/-- Claim C2, evaluated on the code at the failing input: after update at
epoch 1 on a fresh provider, a second update with the identical epoch 1
invokes all four bound accessors again, because update never assigns
currentTime_ and the guard therefore never sees a matching cached epoch; the
epoch marker still holds the sentinel after the first call. -/
theorem C2_second_identical_update_reinvokes_accessors :
    ((((uninitializedState.update sampleAccessors (Epoch.val 1)).1).update
        sampleAccessors (Epoch.val 1)).2 =
      AccessorCallCounts.mk 1 1 1 1) ∧
    ((uninitializedState.update sampleAccessors (Epoch.val 1)).1).currentTime_ =
      Epoch.nan := by
  decide

/-- Claim C3, evaluated on the code at the failing input: after update at
epoch 0 the epoch marker does not equal the epoch passed to the most recent
update call; it still holds the not-a-time sentinel, because update never
assigns currentTime_. -/
theorem C3_epoch_marker_not_updated :
    ((uninitializedState.update sampleAccessors (Epoch.val 0)).1).currentTime_ =
      Epoch.nan ∧
    Epoch.nan ≠ Epoch.val 0 := by
  decide

/-- Claim C4: the parameter dispatch returns width 1 with the mean-moment
evaluator for a mean moment of inertia of the accelerated body, width 1 for
the central-body gravitational parameter, width 3 for the degree-2 cosine
block, width 2 for the degree-2 sine block, and width 0 with an absent
callable for every other parameter identity, including the same parameter
kinds of a different body. -/
theorem C4_parameter_dispatch_widths (b other tag : String) (h : other ≠ b) :
    getParameterPartialFunction b (.meanMomentOfInertia b) =
      (some .wrtMeanMomentOfInertia, 1) ∧
    getParameterPartialFunction b (.gravitationalParameterOfBody b) =
      (some .wrtGravitationalParameter, 1) ∧
    getParameterPartialFunction b (.degreeTwoCosineCoefficients b) =
      (some .wrtCosineSphericalHarmonicCoefficientsOfCentralBody, 3) ∧
    getParameterPartialFunction b (.degreeTwoSineCoefficients b) =
      (some .wrtSineSphericalHarmonicCoefficientsOfCentralBody, 2) ∧
    getParameterPartialFunction b (.unrelatedParameterIdentity b tag) =
      (none, 0) ∧
    getParameterPartialFunction b (.meanMomentOfInertia other) = (none, 0) ∧
    getParameterPartialFunction b (.gravitationalParameterOfBody other) =
      (none, 0) ∧
    getParameterPartialFunction b (.degreeTwoCosineCoefficients other) =
      (none, 0) ∧
    getParameterPartialFunction b (.degreeTwoSineCoefficients other) =
      (none, 0) := by
  simp [getParameterPartialFunction, h]

/-- Witness for claim C4 at concrete body names. -/
theorem C4_parameter_dispatch_widths_witness :
    ("Earth" : String) ≠ "Vehicle" ∧
    (getParameterPartialFunction "Vehicle" (.meanMomentOfInertia "Vehicle") =
        (some .wrtMeanMomentOfInertia, 1) ∧
      getParameterPartialFunction "Vehicle"
          (.gravitationalParameterOfBody "Vehicle") =
        (some .wrtGravitationalParameter, 1) ∧
      getParameterPartialFunction "Vehicle"
          (.degreeTwoCosineCoefficients "Vehicle") =
        (some .wrtCosineSphericalHarmonicCoefficientsOfCentralBody, 3) ∧
      getParameterPartialFunction "Vehicle"
          (.degreeTwoSineCoefficients "Vehicle") =
        (some .wrtSineSphericalHarmonicCoefficientsOfCentralBody, 2) ∧
      getParameterPartialFunction "Vehicle"
          (.unrelatedParameterIdentity "Vehicle" "dragCoefficient") =
        (none, 0) ∧
      getParameterPartialFunction "Vehicle" (.meanMomentOfInertia "Earth") =
        (none, 0) ∧
      getParameterPartialFunction "Vehicle"
          (.gravitationalParameterOfBody "Earth") = (none, 0) ∧
      getParameterPartialFunction "Vehicle"
          (.degreeTwoCosineCoefficients "Earth") = (none, 0) ∧
      getParameterPartialFunction "Vehicle"
          (.degreeTwoSineCoefficients "Earth") = (none, 0)) :=
  ⟨by decide,
   C4_parameter_dispatch_widths "Vehicle" "Earth" "dragCoefficient"
     (by decide)⟩

/-- Claim C5: for every caller-owned matrix, offsets, and sign flag,
wrtRotationalVelocityOfAcceleratedBody adds the cached 3x3 analytic partial
onto the 3x3 sub-block at the offsets when addContribution is true, subtracts
it when addContribution is false, and leaves every entry outside that
sub-block unchanged. -/
theorem C5_wrt_rotational_velocity_block_effect
    (s : InertialTorquePartialState) (m : ℕ → ℕ → ℚ)
    (startRow startColumn a b i j : ℕ) (ha : a < 3) (hb : b < 3)
    (hout : i < startRow ∨ startRow + 3 ≤ i ∨
      j < startColumn ∨ startColumn + 3 ≤ j) :
    s.wrtRotationalVelocityOfAcceleratedBody m true startRow startColumn
        (startRow + a) (startColumn + b) =
      m (startRow + a) (startColumn + b) +
        Mat3.entry s.currentPartialDerivativeWrtAngularVelocity_ a b ∧
    s.wrtRotationalVelocityOfAcceleratedBody m false startRow startColumn
        (startRow + a) (startColumn + b) =
      m (startRow + a) (startColumn + b) -
        Mat3.entry s.currentPartialDerivativeWrtAngularVelocity_ a b ∧
    s.wrtRotationalVelocityOfAcceleratedBody m true startRow startColumn i j =
      m i j ∧
    s.wrtRotationalVelocityOfAcceleratedBody m false startRow startColumn i j =
      m i j := by
  refine ⟨?_, ?_, ?_, ?_⟩
  · exact blockAddMat3_inside m startRow startColumn _ a b ha hb
  · exact blockSubMat3_inside m startRow startColumn _ a b ha hb
  · exact blockAddMat3_outside m startRow startColumn _ i j hout
  · exact blockSubMat3_outside m startRow startColumn _ i j hout

/-- Witness for claim C5 at the sample state, the sample matrix, offsets one
and two, block entry (0, 1) and outside entry (0, 0). -/
theorem C5_wrt_rotational_velocity_block_effect_witness :
    (0 : ℕ) < 3 ∧ (1 : ℕ) < 3 ∧
    ((0 : ℕ) < 1 ∨ (1 : ℕ) + 3 ≤ 0 ∨ (0 : ℕ) < 2 ∨ (2 : ℕ) + 3 ≤ 0) ∧
    (sampleState.wrtRotationalVelocityOfAcceleratedBody sampleMatrixFun true
          1 2 (1 + 0) (2 + 1) =
        sampleMatrixFun (1 + 0) (2 + 1) +
          Mat3.entry
            sampleState.currentPartialDerivativeWrtAngularVelocity_ 0 1 ∧
      sampleState.wrtRotationalVelocityOfAcceleratedBody sampleMatrixFun false
          1 2 (1 + 0) (2 + 1) =
        sampleMatrixFun (1 + 0) (2 + 1) -
          Mat3.entry
            sampleState.currentPartialDerivativeWrtAngularVelocity_ 0 1 ∧
      sampleState.wrtRotationalVelocityOfAcceleratedBody sampleMatrixFun true
          1 2 0 0 = sampleMatrixFun 0 0 ∧
      sampleState.wrtRotationalVelocityOfAcceleratedBody sampleMatrixFun false
          1 2 0 0 = sampleMatrixFun 0 0) :=
  ⟨by decide, by decide, by decide,
   C5_wrt_rotational_velocity_block_effect sampleState sampleMatrixFun
     1 2 0 1 0 0 (by decide) (by decide) (by decide)⟩

/-- Claim C6: writing the rotational-velocity partial into a zero-initialized
block with addContribution true and then again with addContribution false at
the same offsets returns every entry of the block to exactly zero. -/
theorem C6_add_then_subtract_returns_to_zero (s : InertialTorquePartialState)
    (startRow startColumn i j : ℕ) :
    s.wrtRotationalVelocityOfAcceleratedBody
      (s.wrtRotationalVelocityOfAcceleratedBody zeroMatrixFunction true
        startRow startColumn)
      false startRow startColumn i j = 0 := by
  unfold InertialTorquePartialState.wrtRotationalVelocityOfAcceleratedBody
  by_cases hin : startRow ≤ i ∧ i < startRow + 3 ∧
      startColumn ≤ j ∧ j < startColumn + 3
  · simp [blockAddMat3, blockSubMat3, hin, zeroMatrixFunction]
  · simp [blockAddMat3, blockSubMat3, hin, zeroMatrixFunction]

/-- Claim C7: wrtOrientationOfAcceleratedBody is a no-op: for every output
block, offsets, and sign flag it leaves the supplied block and the provider
state exactly as they were before the call. -/
theorem C7_wrt_orientation_is_noop (s : InertialTorquePartialState)
    (m : ℕ → ℕ → ℚ) (addContribution : Bool) (startRow startColumn : ℕ) :
    s.wrtOrientationOfAcceleratedBody m addContribution startRow startColumn =
      (s, m) :=
  rfl

/-- Claim C8: both state-dependency predicates return false for every state
reference point and every integrated state type; being total Lean functions
into Bool they are side-effect-free. -/
theorem C8_dependency_predicates_always_false
    (stateReferencePoint : String × String)
    (integratedStateType : IntegratedStateType) :
    isStateDerivativeDependentOnIntegratedNonRotationalState
        stateReferencePoint integratedStateType = false ∧
    isStateDerivativeDependentOnIntegratedAdditionalStateTypes
        stateReferencePoint integratedStateType = false :=
  ⟨rfl, rfl⟩

/-- Claim C9: the not-a-time sentinel compares unequal to itself, so update
called with the sentinel always refreshes: from any provider state, two
successive calls with the sentinel both invoke every bound accessor exactly
once, and the refreshed cache holds the accessor values. -/
theorem C9_sentinel_epoch_always_refreshes (acc : Accessors)
    (s : InertialTorquePartialState) :
    epochEq Epoch.nan Epoch.nan = false ∧
    (s.update acc Epoch.nan).2 = AccessorCallCounts.mk 1 1 1 1 ∧
    (((s.update acc Epoch.nan).1).update acc Epoch.nan).2 =
      AccessorCallCounts.mk 1 1 1 1 ∧
    ((s.update acc Epoch.nan).1).currentAngularVelocityVector_ =
      acc.angularVelocityFunction_ ∧
    ((s.update acc Epoch.nan).1).currentInertiaTensor_ =
      acc.inertiaTensorFunction_ ∧
    ((s.update acc Epoch.nan).1).currentInertiaTensorNormalizationFactor_ =
      acc.getInertiaTensorNormalizationFactor_ ∧
    ((s.update acc Epoch.nan).1).currentGravitationalParameter_ =
      acc.bodyGravitationalParameterFunction_ := by
  simp [InertialTorquePartialState.update, epochEq_nan_right]

/-- Claim C10: the generator is deterministic: two
ContinuousRandomVariableGenerator instances constructed from the same
probability distribution and the same seed produce identical value sequences
over any number of calls, and the sequence of either instance equals the
closed-form stream that is a pure function of the distribution, the seed, and
the call index alone, so no state outside the instance influences the
output. -/
theorem C10_same_seed_same_sequence
    (d1 d2 : InvertibleContinuousProbabilityDistribution) (s1 s2 : ℕ)
    (h1 : d1 = d2) (h2 : s1 = s2) (n : ℕ) :
    (mkContinuousRandomVariableGenerator d1 s1).randomSequence n =
      (mkContinuousRandomVariableGenerator d2 s2).randomSequence n ∧
    (mkContinuousRandomVariableGenerator d1 s1).randomSequence n =
      deterministicSequence d1 s1 n := by
  subst h1 h2
  refine ⟨rfl, ?_⟩
  rw [randomSequence_eq_stream]
  rfl

/-- Witness for claim C10 at the sample distribution, seed 12, and two
draws. -/
theorem C10_same_seed_same_sequence_witness :
    sampleDistribution = sampleDistribution ∧ (12 : ℕ) = 12 ∧
    ((mkContinuousRandomVariableGenerator sampleDistribution
          12).randomSequence 2 =
        (mkContinuousRandomVariableGenerator sampleDistribution
          12).randomSequence 2 ∧
      (mkContinuousRandomVariableGenerator sampleDistribution
          12).randomSequence 2 =
        deterministicSequence sampleDistribution 12 2) :=
  ⟨rfl, rfl,
   C10_same_seed_same_sequence sampleDistribution sampleDistribution 12 12
     rfl rfl 2⟩
